import Mathlib

/-!
Shallow embedding of `src/game.c` from the repository Nufflee/nothing
(the orchestration core of a 2D platformer), together with a model of the
Resource Ledger module (`lt.h` / `lt.c`, referenced by `game.c` but not
part of the provided sources).

External collaborators (SDL2, the player, platforms and camera subsystems,
libc allocation, file loading) are modelled by explicit oracles for their
fallible results and by an event trace recording every call the core makes
into them.
-/

/-- Opaque resource handles (non-null C pointers) are modelled as naturals. -/
abbrev Handle := Nat

/-- Release operations that `game.c` registers with the resource ledger. -/
inductive ReleaseOp where
  | free
  | destroyPlayer
  | destroyPlatforms
  | destroyCamera
deriving DecidableEq, Repr

/-- One ledger entry: an owned handle plus its release operation. -/
structure Entry where
  handle : Handle
  release : ReleaseOp
deriving DecidableEq, Repr

/-- Modelled from the spec: the Resource Ledger type `lt_t` lives in
`lt.h` / `lt.c`, which are not among the provided sources. Entries are kept
in registration order (oldest first). -/
structure Lt where
  entries : List Entry
deriving DecidableEq, Repr

/-- Observable calls the core makes into its external collaborators. -/
inductive Event where
  | released (op : ReleaseOp) (h : Handle)
  | errorThrown
  | errorReported
  | playerJump
  | playerMoveLeft
  | playerMoveRight
  | playerStop
  | playerUpdate (dt : Nat)
  | focusCamera
  | setDrawColor
  | renderClear
  | renderPlayer
  | renderPlatforms
  | present
deriving DecidableEq, Repr

/-- Modelled from the spec: `PUSH_LT` (register). Registering a produced
handle appends an entry and returns the handle unchanged for chaining; a
failed producer (NULL) registers nothing and propagates the failure. -/
def push_lt (lt : Lt) (h : Option Handle) (op : ReleaseOp) : Lt × Option Handle :=
  match h with
  | some h => ({ entries := lt.entries ++ [{ handle := h, release := op }] }, some h)
  | none => (lt, none)

/-- Modelled from the spec: the teardown walk behind `RETURN_LT` /
`RETURN_LT0` (release_all). Entries are released newest to oldest, each via
its stored release operation, exactly once. -/
def releaseList : List Entry → List Event
  | [] => []
  | e :: rest => releaseList rest ++ [.released e.release e.handle]

/-- Modelled from the spec: `release_all` over a whole ledger. -/
def release_all (lt : Lt) : List Event :=
  releaseList lt.entries

/-- Modelled from the spec: `RESET_LT` (replace). Invokes the producer
(whose result is the `newH` argument); if it failed (NULL), the old entry
is untouched, nothing is released, and NULL is returned so the caller can
detect the failure; if it succeeded, the old handle is released via its
stored release operation, the slot keeps its position and release
operation but now owns the new handle, and the new handle is returned. -/
def reset_lt (lt : Lt) (oldH : Handle) (newH : Option Handle) :
    Lt × Option Handle × List Event :=
  match newH with
  | none => (lt, none, [])
  | some h =>
    ({ entries := lt.entries.map fun e =>
        if e.handle = oldH then { e with handle := h } else e },
     some h,
     match lt.entries.find? fun e => e.handle = oldH with
     | some e => [.released e.release oldH]
     | none => [])

/-- game_state_t from game.c. -/
inductive GameState where
  | running
  | pause
  | quit
deriving DecidableEq, Repr

/-- game_t from game.c. The four resource fields are references into
ledger-owned storage; they are C pointers, hence possibly NULL.
`path_contents` is the character content of the `level_file_path` buffer.
`lastGoodLoadPath` is a ghost field (no C counterpart): it records the path
argument of the most recent successful `load_platforms_from_file` call,
for stating the path-buffer invariant. -/
structure Game where
  lt : Lt
  state : GameState
  player : Option Handle
  platforms : Option Handle
  camera : Option Handle
  level_file_path : Option Handle
  path_contents : String
  lastGoodLoadPath : String
deriving Repr

/-- SDL key symbol SDLK_SPACE. -/
def SDLK_SPACE : Nat := 32

/-- SDL key symbol SDLK_p. -/
def SDLK_p : Nat := 112

/-- SDL key symbol SDLK_q. -/
def SDLK_q : Nat := 113

/-- The discrete SDL events game.c inspects: SDL_QUIT, SDL_KEYDOWN with a
key symbol, SDL_JOYBUTTONDOWN with a button index, and every other event
type (which the switches fall through). -/
inductive SDLEvent where
  | quit
  | keyDown (sym : Nat)
  | joyButtonDown (button : Nat)
  | otherEvent (ty : Nat)
deriving DecidableEq, Repr

/-- Results of the fallible external calls made during create_game, in
program order: create_lt, malloc of game_t, create_player,
load_platforms_from_file (as a function of the path argument),
create_camera, and malloc of the path buffer. -/
structure CreateOracles where
  ltOk : Bool
  gameMalloc : Option Handle
  playerCreate : Option Handle
  platformsLoad : String → Option Handle
  cameraCreate : Option Handle
  pathMalloc : Option Handle

/-- create_game from game.c: registers, in order, the game_t allocation,
the player, the level platforms, the camera and the level path buffer; on
any failure the ledger built so far is torn down and no game is returned.
Returns the constructed game (when successful) and the event trace. -/
def create_game (o : CreateOracles) (level_file_path : String) :
    Option Game × List Event :=
  if o.ltOk = false then (none, []) else
  let lt0 : Lt := { entries := [] }
  match push_lt lt0 o.gameMalloc .free with
  | (lt1, none) => (none, .errorThrown :: release_all lt1)
  | (lt1, some _) =>
    match push_lt lt1 o.playerCreate .destroyPlayer with
    | (lt2, none) => (none, release_all lt2)
    | (lt2, some playerH) =>
      match push_lt lt2 (o.platformsLoad level_file_path) .destroyPlatforms with
      | (lt3, none) => (none, release_all lt3)
      | (lt3, some platformsH) =>
        match push_lt lt3 o.cameraCreate .destroyCamera with
        | (lt4, none) => (none, release_all lt4)
        | (lt4, some cameraH) =>
          match push_lt lt4 o.pathMalloc .free with
          | (lt5, none) => (none, .errorThrown :: release_all lt5)
          | (lt5, some pathH) =>
            (some { lt := lt5
                    state := .running
                    player := some playerH
                    platforms := some platformsH
                    camera := some cameraH
                    level_file_path := some pathH
                    path_contents := level_file_path
                    lastGoodLoadPath := level_file_path }, [])

/-- destroy_game from game.c: RETURN_LT0 tears down the whole ledger.
Returns the trace of release operations invoked. -/
def destroy_game (g : Game) : List Event :=
  release_all g.lt

/-- game_event_running from game.c. `load` gives the result of
`load_platforms_from_file` as a function of its path argument. Returns the
updated game, the C return code, and the event trace. -/
def game_event_running (load : String → Option Handle) (g : Game) (e : SDLEvent) :
    Game × Int × List Event :=
  match e with
  | .quit => ({ g with state := .quit }, 0, [])
  | .keyDown sym =>
    if sym = SDLK_SPACE then (g, 0, [.playerJump])
    else if sym = SDLK_q then
      let r := reset_lt g.lt (g.platforms.getD 0) (load g.path_contents)
      match r.2.1 with
      | none =>
        ({ g with lt := r.1, platforms := none, state := .quit }, -1,
         r.2.2 ++ [.errorReported])
      | some h =>
        ({ g with lt := r.1, platforms := some h,
                  lastGoodLoadPath := g.path_contents }, 0, r.2.2)
    else if sym = SDLK_p then ({ g with state := .pause }, 0, [])
    else (g, 0, [])
  | .joyButtonDown b =>
    if b = 1 then (g, 0, [.playerJump]) else (g, 0, [])
  | .otherEvent _ => (g, 0, [])

/-- game_event_pause from game.c. -/
def game_event_pause (g : Game) (e : SDLEvent) : Game × Int × List Event :=
  match e with
  | .quit => ({ g with state := .quit }, 0, [])
  | .keyDown sym =>
    if sym = SDLK_p then ({ g with state := .running }, 0, []) else (g, 0, [])
  | .joyButtonDown _ => (g, 0, [])
  | .otherEvent _ => (g, 0, [])

/-- game_event from game.c: dispatch on the current state; the default
(quit) branch does nothing and returns 0. -/
def game_event (load : String → Option Handle) (g : Game) (e : SDLEvent) :
    Game × Int × List Event :=
  match g.state with
  | .running => game_event_running load g e
  | .pause => game_event_pause g e
  | .quit => (g, 0, [])

/-- Continuous input snapshot read by game_input: the A and D keyboard
scancodes and the value of joystick axis 0. The joystick pointer itself is
asserted non-null at entry, so its truth value in the conditions is
constant. -/
structure InputState where
  keyA : Bool
  keyD : Bool
  joyAxis0 : Int
deriving DecidableEq, Repr

/-- game_input from game.c. The game fields are never written; the call
returns the C return code and the trace of player commands issued. -/
def game_input (g : Game) (i : InputState) : Int × List Event :=
  if g.state = .quit ∨ g.state = .pause then (0, [])
  else if i.keyA then (0, [.playerMoveLeft])
  else if i.keyD then (0, [.playerMoveRight])
  else if i.joyAxis0 < 0 then (0, [.playerMoveLeft])
  else if i.joyAxis0 > 0 then (0, [.playerMoveRight])
  else (0, [.playerStop])

/-- game_update from game.c. The game fields are never written; in the
running state the player simulation step and the camera re-centering are
invoked, otherwise nothing happens. -/
def game_update (g : Game) (delta_time : Nat) : Int × List Event :=
  if g.state = .quit then (0, [])
  else if g.state = .running then (0, [.playerUpdate delta_time, .focusCamera])
  else (0, [])

/-- Results of the fallible drawing backend calls made during game_render,
in program order: SDL_SetRenderDrawColor, SDL_RenderClear, render_player,
render_platforms. -/
structure RenderOracles where
  setColorOk : Bool
  clearOk : Bool
  playerOk : Bool
  platformsOk : Bool
deriving DecidableEq, Repr

/-- game_render from game.c. The game is read-only (const in C); the call
returns the C return code and the trace of backend calls that succeeded,
ending with the frame presentation exactly when every step succeeded. -/
def game_render (o : RenderOracles) (g : Game) : Int × List Event :=
  if g.state = .quit then (0, [])
  else if o.setColorOk = false then (-1, [.errorThrown])
  else if o.clearOk = false then (-1, [.setDrawColor, .errorThrown])
  else if o.playerOk = false then (-1, [.setDrawColor, .renderClear])
  else if o.platformsOk = false then
    (-1, [.setDrawColor, .renderClear, .renderPlayer])
  else (0, [.setDrawColor, .renderClear, .renderPlayer, .renderPlatforms, .present])

/-- is_game_over from game.c. -/
def is_game_over (g : Game) : Bool :=
  g.state = .quit

/-- One call of the per-frame contract, with the oracle results the call
consumes. -/
inductive FrameCall where
  | input (i : InputState)
  | event (load : String → Option Handle) (e : SDLEvent)
  | update (dt : Nat)
  | render (o : RenderOracles)

/-- Runs one frame-dispatcher call, returning the (possibly) updated game,
the C return code, and the event trace. Only game_event may modify the
game. -/
def runCall (g : Game) : FrameCall → Game × Int × List Event
  | .input i => (g, (game_input g i).1, (game_input g i).2)
  | .event load e => game_event load g e
  | .update dt => (g, (game_update g dt).1, (game_update g dt).2)
  | .render o => (g, (game_render o g).1, (game_render o g).2)

/-- Runs a sequence of frame-dispatcher calls, collecting the return codes
and the concatenated event trace. -/
def runCalls (g : Game) : List FrameCall → Game × List Int × List Event
  | [] => (g, [], [])
  | c :: cs =>
    let r := runCall g c
    let rest := runCalls r.1 cs
    (rest.1, r.2.1 :: rest.2.1, r.2.2 ++ rest.2.2)

/-- The teardown walk emits precisely the registered entries in reverse
registration order. -/
theorem releaseList_eq_reverse_map (es : List Entry) :
    releaseList es = (es.map fun e => Event.released e.release e.handle).reverse := by
  induction es with
  | nil => rfl
  | cons e rest ih => simp [releaseList, ih]

/-- Concrete construction oracle in which every external call succeeds,
with pairwise distinct handles. -/
def oraclesAllOk : CreateOracles :=
  { ltOk := true
    gameMalloc := some 1
    playerCreate := some 2
    platformsLoad := fun _ => some 3
    cameraCreate := some 4
    pathMalloc := some 5 }

/-- Construction oracle in which the level geometry load fails and every
other external call succeeds. -/
def oraclesLoadFails : CreateOracles :=
  { oraclesAllOk with platformsLoad := fun _ => none }

/-- C1: for every sequence of successful registrations into the resource
ledger — in the session, the game allocation, then the player, the level
geometry, the camera and the level-path buffer — releasing the whole
ledger (destroy_game, via release_all) invokes the stored release
operations in exactly reverse registration order, each exactly once: the
teardown trace is exactly the reversed registration list. -/
theorem c1_release_all_reverse_order
    (o : CreateOracles) (path : String) (hg hp hpl hc hb : Handle)
    (hlt : o.ltOk = true)
    (h1 : o.gameMalloc = some hg) (h2 : o.playerCreate = some hp)
    (h3 : o.platformsLoad path = some hpl) (h4 : o.cameraCreate = some hc)
    (h5 : o.pathMalloc = some hb) :
    (∀ lt : Lt, release_all lt =
      (lt.entries.map fun e => Event.released e.release e.handle).reverse) ∧
    ∃ g : Game, (create_game o path).1 = some g ∧
      g.lt.entries =
        [⟨hg, .free⟩, ⟨hp, .destroyPlayer⟩, ⟨hpl, .destroyPlatforms⟩,
         ⟨hc, .destroyCamera⟩, ⟨hb, .free⟩] ∧
      destroy_game g =
        [.released .free hb, .released .destroyCamera hc,
         .released .destroyPlatforms hpl, .released .destroyPlayer hp,
         .released .free hg] := by
  refine ⟨fun lt => releaseList_eq_reverse_map lt.entries, ?_⟩
  simp [create_game, push_lt, hlt, h1, h2, h3, h4, h5,
        destroy_game, release_all, releaseList]

/-- C1 witness: instantiation at the all-successful oracle with handles
1..5 and the path "level.txt". -/
theorem c1_release_all_reverse_order_witness :
    (∀ lt : Lt, release_all lt =
      (lt.entries.map fun e => Event.released e.release e.handle).reverse) ∧
    ∃ g : Game, (create_game oraclesAllOk "level.txt").1 = some g ∧
      g.lt.entries =
        [⟨1, .free⟩, ⟨2, .destroyPlayer⟩, ⟨3, .destroyPlatforms⟩,
         ⟨4, .destroyCamera⟩, ⟨5, .free⟩] ∧
      destroy_game g =
        [.released .free 5, .released .destroyCamera 4,
         .released .destroyPlatforms 3, .released .destroyPlayer 2,
         .released .free 1] :=
  c1_release_all_reverse_order oraclesAllOk "level.txt" 1 2 3 4 5
    rfl rfl rfl rfl rfl rfl

/-- C4: constructing a session with a level path whose geometry load fails
releases each previously registered resource — in particular the player,
registered before the failing load — exactly once via the ledger, in
reverse order, and returns no session. -/
theorem c4_aborted_construction_safety
    (o : CreateOracles) (path : String) (hg hp : Handle)
    (hlt : o.ltOk = true)
    (h1 : o.gameMalloc = some hg) (h2 : o.playerCreate = some hp)
    (h3 : o.platformsLoad path = none) :
    create_game o path =
      (none, [.released .destroyPlayer hp, .released .free hg]) := by
  simp [create_game, push_lt, hlt, h1, h2, h3, release_all, releaseList]

/-- C4 witness: instantiation at the failing-load oracle. -/
theorem c4_aborted_construction_safety_witness :
    create_game oraclesLoadFails "level.txt" =
      (none, [.released .destroyPlayer 2, .released .free 1]) :=
  c4_aborted_construction_safety oraclesLoadFails "level.txt" 1 2
    rfl rfl rfl rfl

/-- The game a fully successful construction with oraclesAllOk and path
"level.txt" produces. -/
def game0 : Game :=
  { lt := { entries := [⟨1, .free⟩, ⟨2, .destroyPlayer⟩, ⟨3, .destroyPlatforms⟩,
                        ⟨4, .destroyCamera⟩, ⟨5, .free⟩] }
    state := .running
    player := some 2
    platforms := some 3
    camera := some 4
    level_file_path := some 5
    path_contents := "level.txt"
    lastGoodLoadPath := "level.txt" }

/-- C2: in the running state, when the level-geometry producer invoked by
the reload (KeyDown q) fails, the ledger is left completely unchanged — in
particular the old geometry handle is still registered at its slot with
its release operation — and the trace contains only the error report, so
no release operation fires for the old handle. -/
theorem c2_reload_failure_atomic
    (load : String → Option Handle) (g : Game)
    (hrun : g.state = .running)
    (hfail : load g.path_contents = none) :
    (game_event load g (.keyDown SDLK_q)).1.lt = g.lt ∧
    (game_event load g (.keyDown SDLK_q)).2.2 = [Event.errorReported] := by
  simp [game_event, hrun, game_event_running, SDLK_q, SDLK_SPACE, reset_lt, hfail]

/-- C2 witness: instantiation at game0 with an always-failing loader. -/
theorem c2_reload_failure_atomic_witness :
    (game_event (fun _ => none) game0 (.keyDown SDLK_q)).1.lt = game0.lt ∧
    (game_event (fun _ => none) game0 (.keyDown SDLK_q)).2.2 =
      [Event.errorReported] :=
  c2_reload_failure_atomic (fun _ => none) game0 rfl rfl

/-- C3: the discrete event entry point returns only 0 or -1; it returns -1
exactly when the state is running, the event is KeyDown q and the level
load fails; and in that case the resulting state is quit and the error has
been recorded for display. -/
theorem c3_event_error_only_on_reload_failure
    (load : String → Option Handle) (g : Game) (e : SDLEvent) :
    ((game_event load g e).2.1 = 0 ∨ (game_event load g e).2.1 = -1) ∧
    ((game_event load g e).2.1 = -1 ↔
      g.state = .running ∧ e = .keyDown SDLK_q ∧ load g.path_contents = none) ∧
    ((game_event load g e).2.1 = -1 →
      (game_event load g e).1.state = .quit ∧
      Event.errorReported ∈ (game_event load g e).2.2) := by
  cases hs : g.state with
  | quit => simp [game_event, hs]
  | pause =>
    cases e with
    | quit => simp [game_event, hs, game_event_pause]
    | keyDown sym =>
      by_cases hp : sym = SDLK_p <;>
        simp [game_event, hs, game_event_pause, hp]
    | joyButtonDown b => simp [game_event, hs, game_event_pause]
    | otherEvent t => simp [game_event, hs, game_event_pause]
  | running =>
    cases e with
    | quit => simp [game_event, hs, game_event_running]
    | keyDown sym =>
      simp only [game_event, hs, game_event_running, SDLK_SPACE, SDLK_q, SDLK_p]
      by_cases h32 : sym = 32
      · simp [h32]
      · by_cases h113 : sym = 113
        · cases hl : load g.path_contents with
          | none => simp [h32, h113, reset_lt, hl]
          | some h => simp [h32, h113, reset_lt, hl]
        · by_cases h112 : sym = 112 <;> simp [h32, h113, h112]
    | joyButtonDown b =>
      by_cases hb : b = 1 <;> simp [game_event, hs, game_event_running, hb]
    | otherEvent t => simp [game_event, hs, game_event_running]

/-- C10: in the running state, a KeyDown whose key is none of space
(jump), q (reload) or p (pause), and a joystick button press other than
button 1, are ignored: the game — state, handles, ledger — is returned
unchanged, no player call is made, and the return code is 0. -/
theorem c10_running_ignores_unmapped_events
    (load : String → Option Handle) (g : Game) (e : SDLEvent)
    (hrun : g.state = .running)
    (h : (∃ sym, e = .keyDown sym ∧
            sym ≠ SDLK_SPACE ∧ sym ≠ SDLK_q ∧ sym ≠ SDLK_p) ∨
         ∃ b, e = .joyButtonDown b ∧ b ≠ 1) :
    game_event load g e = (g, 0, []) := by
  rcases h with ⟨sym, rfl, h1, h2, h3⟩ | ⟨b, rfl, hb⟩
  · simp [game_event, hrun, game_event_running, h1, h2, h3]
  · simp [game_event, hrun, game_event_running, hb]

/-- C10 witness: instantiation at game0 with the x key (symbol 120). -/
theorem c10_running_ignores_unmapped_events_witness :
    game_event (fun _ => none) game0 (.keyDown 120) = (game0, 0, []) :=
  c10_running_ignores_unmapped_events (fun _ => none) game0 (.keyDown 120)
    rfl (Or.inl ⟨120, rfl, by decide, by decide, by decide⟩)

/-- game0 after a WindowClose, in the absorbing quit state. -/
def gameQuit : Game :=
  { game0 with state := .quit }

/-- game0 after a pause keypress. -/
def gamePause : Game :=
  { game0 with state := .pause }

/-- Once the state is quit, any single frame-dispatcher call returns the
game unchanged, reports success, and produces no events. -/
theorem runCall_quit (g : Game) (c : FrameCall) (hq : g.state = .quit) :
    runCall g c = (g, 0, []) := by
  cases c <;>
    simp [runCall, game_input, game_event, game_update, game_render, hq]

/-- C5: once the state is quit (Terminated), every sequence of input,
event, update and render calls leaves the game — and in particular its
state — unchanged, returns success (0) from every call, and produces an
empty event trace: no player movement command and no draw or present
call. -/
theorem c5_terminated_state_absorbing (g : Game) (cs : List FrameCall)
    (hq : g.state = .quit) :
    runCalls g cs = (g, List.replicate cs.length 0, []) := by
  induction cs with
  | nil => rfl
  | cons c cs ih =>
    simp [runCalls, runCall_quit g c hq, ih, List.replicate_succ]

/-- C5 witness: instantiation at the quit game with one call of each
kind. -/
theorem c5_terminated_state_absorbing_witness :
    runCalls gameQuit
      [.input ⟨true, true, -1⟩, .event (fun _ => some 7) (.keyDown 113),
       .update 16, .render ⟨true, true, true, true⟩] =
    (gameQuit,
     List.replicate
       (List.length
         [FrameCall.input ⟨true, true, -1⟩,
          .event (fun _ => some 7) (.keyDown 113),
          .update 16, .render ⟨true, true, true, true⟩]) 0,
     []) :=
  c5_terminated_state_absorbing gameQuit
    [.input ⟨true, true, -1⟩, .event (fun _ => some 7) (.keyDown 113),
     .update 16, .render ⟨true, true, true, true⟩] rfl

/-- C6: in the running state a single input-sampling call issues exactly
one of move-left, move-right, stop to the player, chosen by the precedence
keyboard-A, then keyboard-D, then negative axis, then positive axis, else
stop; in particular with both keys down (whatever the axis) move-left is
issued. -/
theorem c6_input_precedence (g : Game) (i : InputState)
    (hrun : g.state = .running) :
    ((game_input g i).2.length = 1 ∧
     ∀ e ∈ (game_input g i).2,
       e = Event.playerMoveLeft ∨ e = Event.playerMoveRight ∨
       e = Event.playerStop) ∧
    (i.keyA = true → (game_input g i).2 = [Event.playerMoveLeft]) ∧
    (i.keyA = false → i.keyD = true →
      (game_input g i).2 = [Event.playerMoveRight]) ∧
    (i.keyA = false → i.keyD = false → i.joyAxis0 < 0 →
      (game_input g i).2 = [Event.playerMoveLeft]) ∧
    (i.keyA = false → i.keyD = false → 0 < i.joyAxis0 →
      (game_input g i).2 = [Event.playerMoveRight]) ∧
    (i.keyA = false → i.keyD = false → i.joyAxis0 = 0 →
      (game_input g i).2 = [Event.playerStop]) := by
  refine ⟨?_, ?_, ?_, ?_, ?_, ?_⟩
  · by_cases hA : i.keyA
    · simp [game_input, hrun, hA]
    · by_cases hD : i.keyD
      · simp [game_input, hrun, hA, hD]
      · rcases lt_trichotomy i.joyAxis0 0 with hax | hax | hax
        · simp [game_input, hrun, hA, hD, hax]
        · simp [game_input, hrun, hA, hD, hax]
        · simp [game_input, hrun, hA, hD, hax, lt_asymm hax]
  · intro hA
    simp [game_input, hrun, hA]
  · intro hA hD
    simp [game_input, hrun, hA, hD]
  · intro hA hD hax
    simp [game_input, hrun, hA, hD, hax]
  · intro hA hD hax
    simp [game_input, hrun, hA, hD, hax, lt_asymm hax]
  · intro hA hD hax
    simp [game_input, hrun, hA, hD, hax]

/-- C6 witness: instantiation at game0 with both direction keys down. -/
theorem c6_input_precedence_witness :
    ((game_input game0 ⟨true, true, 0⟩).2.length = 1 ∧
     ∀ e ∈ (game_input game0 ⟨true, true, 0⟩).2,
       e = Event.playerMoveLeft ∨ e = Event.playerMoveRight ∨
       e = Event.playerStop) ∧
    ((true : Bool) = true →
      (game_input game0 ⟨true, true, 0⟩).2 = [Event.playerMoveLeft]) ∧
    ((true : Bool) = false → (true : Bool) = true →
      (game_input game0 ⟨true, true, 0⟩).2 = [Event.playerMoveRight]) ∧
    ((true : Bool) = false → (true : Bool) = false → (0 : Int) < 0 →
      (game_input game0 ⟨true, true, 0⟩).2 = [Event.playerMoveLeft]) ∧
    ((true : Bool) = false → (true : Bool) = false → (0 : Int) < 0 →
      (game_input game0 ⟨true, true, 0⟩).2 = [Event.playerMoveRight]) ∧
    ((true : Bool) = false → (true : Bool) = false → (0 : Int) = 0 →
      (game_input game0 ⟨true, true, 0⟩).2 = [Event.playerStop]) :=
  c6_input_precedence game0 ⟨true, true, 0⟩ rfl

/-- C7: a simulation-update call in the paused state, for any positive
elapsed time, succeeds (returns 0) and makes no call at all into the
player or camera subsystems — neither the player simulation step nor the
camera re-centering runs, so player position and camera are unchanged.
The game fields themselves are never written by game_update. -/
theorem c7_pause_suppresses_update (g : Game) (dt : Nat)
    (hp : g.state = .pause) (_hdt : 0 < dt) :
    game_update g dt = (0, []) := by
  simp [game_update, hp]

/-- C7 witness: instantiation at the paused game with a 10-second
elapsed time. -/
theorem c7_pause_suppresses_update_witness :
    game_update gamePause 10000 = (0, []) :=
  c7_pause_suppresses_update gamePause 10000 rfl (by decide)

/-- C8: a render call on a game that is not quit, in which some drawing
backend step (set color, clear, player draw, platforms draw) fails,
returns -1 and never presents the frame. The game is read-only to
game_render (const in C), so the session state is unchanged by the
call. -/
theorem c8_render_failure_aborts_frame (o : RenderOracles) (g : Game)
    (hnq : g.state ≠ .quit)
    (hfail : o.setColorOk = false ∨ o.clearOk = false ∨
             o.playerOk = false ∨ o.platformsOk = false) :
    (game_render o g).1 = -1 ∧ Event.present ∉ (game_render o g).2 := by
  obtain ⟨b1, b2, b3, b4⟩ := o
  cases b1 <;> cases b2 <;> cases b3 <;> cases b4 <;>
    simp_all [game_render]

/-- C8 witness: instantiation at game0 with a failing platforms draw. -/
theorem c8_render_failure_aborts_frame_witness :
    (game_render ⟨true, true, true, false⟩ game0).1 = -1 ∧
    Event.present ∉ (game_render ⟨true, true, true, false⟩ game0).2 :=
  c8_render_failure_aborts_frame ⟨true, true, true, false⟩ game0
    (by decide) (by decide)

/-- Session handle invariant actually maintained by game.c: the player,
camera and path-buffer references are non-null, the path buffer holds the
path of the last successful geometry load, and the platforms reference can
be null only in the quit state (it becomes null exactly on a failed
reload, which also quits). -/
def goodGame (g : Game) : Prop :=
  g.player.isSome = true ∧ g.camera.isSome = true ∧
  g.level_file_path.isSome = true ∧
  g.path_contents = g.lastGoodLoadPath ∧
  (g.platforms = none → g.state = .quit)

/-- Every successfully constructed game satisfies the handle invariant. -/
theorem create_game_good (o : CreateOracles) (path : String) (g : Game)
    (hc : (create_game o path).1 = some g) : goodGame g := by
  cases hlt : o.ltOk <;>
    cases h1 : o.gameMalloc <;> cases h2 : o.playerCreate <;>
    cases h3 : o.platformsLoad path <;> cases h4 : o.cameraCreate <;>
    cases h5 : o.pathMalloc <;>
    simp_all [create_game, push_lt, goodGame] <;>
    simp [← hc]

/-- Discrete event handling preserves the handle invariant. -/
theorem game_event_good (load : String → Option Handle) (g : Game)
    (e : SDLEvent) (hg : goodGame g) : goodGame (game_event load g e).1 := by
  obtain ⟨hp, hc, hf, hpath, hplat⟩ := hg
  cases hs : g.state with
  | quit =>
    simpa [game_event, hs] using ⟨hp, hc, hf, hpath, hplat⟩
  | pause =>
    have hpn : g.platforms ≠ none := fun hn => by
      rw [hplat hn] at hs; exact GameState.noConfusion hs
    cases e with
    | quit =>
      simp [game_event, hs, game_event_pause, goodGame, hp, hc, hf, hpath]
    | keyDown sym =>
      by_cases h112 : sym = SDLK_p <;>
        simp [game_event, hs, game_event_pause, goodGame, h112,
              hp, hc, hf, hpath, hplat, hpn]
    | joyButtonDown b =>
      simp [game_event, hs, game_event_pause, goodGame, hp, hc, hf, hpath, hpn]
    | otherEvent t =>
      simp [game_event, hs, game_event_pause, goodGame, hp, hc, hf, hpath, hpn]
  | running =>
    have hpn : g.platforms ≠ none := fun hn => by
      rw [hplat hn] at hs; exact GameState.noConfusion hs
    cases e with
    | quit =>
      simp [game_event, hs, game_event_running, goodGame, hp, hc, hf, hpath]
    | keyDown sym =>
      simp only [game_event, hs, game_event_running, SDLK_SPACE, SDLK_q, SDLK_p]
      by_cases h32 : sym = 32
      · simp [h32, goodGame, hp, hc, hf, hpath, hplat, hpn]
      · by_cases h113 : sym = 113
        · cases hl : load g.path_contents with
          | none =>
            simp [h32, h113, reset_lt, hl, goodGame, hp, hc, hf, hpath]
          | some h =>
            simp [h32, h113, reset_lt, hl, goodGame, hp, hc, hf]
        · by_cases h112 : sym = 112 <;>
            simp [h32, h113, h112, goodGame, hp, hc, hf, hpath, hplat, hpn]
    | joyButtonDown b =>
      by_cases hb : b = 1 <;>
        simp [game_event, hs, game_event_running, hb, goodGame,
              hp, hc, hf, hpath, hplat, hpn]
    | otherEvent t =>
      simp [game_event, hs, game_event_running, goodGame,
            hp, hc, hf, hpath, hplat, hpn]

/-- One frame-dispatcher call preserves the handle invariant: only
game_event can modify the game at all. -/
theorem runCall_good (g : Game) (c : FrameCall) (hg : goodGame g) :
    goodGame (runCall g c).1 := by
  cases c with
  | input i => exact hg
  | event load e => exact game_event_good load g e hg
  | update dt => exact hg
  | render o => exact hg

/-- Any sequence of frame-dispatcher calls preserves the handle
invariant. -/
theorem runCalls_good (g : Game) (cs : List FrameCall) (hg : goodGame g) :
    goodGame (runCalls g cs).1 := by
  induction cs generalizing g with
  | nil => exact hg
  | cons c cs ih => exact ih (runCall g c).1 (runCall_good g c hg)

/-- C9 counterexample: the claim that all four handles are non-null in
every reachable state other than construction failure is false — after a
successful construction (oraclesAllOk, handles 1..5, yielding game0) a
failed reload leaves the session platforms reference NULL while the state
is the reachable quit (Terminated) state. -/
theorem c9_counterexample_platforms_null_after_failed_reload :
    (create_game oraclesAllOk "level.txt").1 = some game0 ∧
    (game_event (fun _ => none) game0 (.keyDown SDLK_q)).1.platforms = none ∧
    (game_event (fun _ => none) game0 (.keyDown SDLK_q)).1.state = .quit :=
  ⟨rfl, rfl, rfl⟩

/-- C9 amended: for every successfully constructed session and every
state reachable from it by frame-dispatcher calls, the player, camera and
level-file-path references are non-null and the path buffer contents
equal the path last used for a successful geometry load; the
level-geometry reference is also non-null except after a failed reload,
which nulls the session reference (the ledger still owns the old handle)
while transitioning to the Terminated state — that is, a null geometry
reference implies state quit. -/
theorem c9_amended_handle_invariant (o : CreateOracles) (path : String)
    (g0 : Game) (cs : List FrameCall)
    (hc : (create_game o path).1 = some g0) :
    goodGame (runCalls g0 cs).1 :=
  runCalls_good g0 cs (create_game_good o path g0 hc)

/-- C9 witness: instantiation at the all-successful construction followed
by a pause keypress, a failing reload attempt and an update call. -/
theorem c9_amended_handle_invariant_witness :
    goodGame (runCalls game0
      [.event (fun _ => some 7) (.keyDown 112),
       .event (fun _ => some 7) (.keyDown 112),
       .event (fun _ => none) (.keyDown 113),
       .update 16]).1 :=
  c9_amended_handle_invariant oraclesAllOk "level.txt" game0
    [.event (fun _ => some 7) (.keyDown 112),
     .event (fun _ => some 7) (.keyDown 112),
     .event (fun _ => none) (.keyDown 113),
     .update 16] rfl
